import Mathlib

/-!
Verification of the KnowledgeBase_Manager retrieval-augmented query
pipeline and ingestion batch lifecycle.

Python strings are modelled as lists of characters, Python/JSON values as
an inductive `JVal`, exceptions as explicit `Except` results, and the
external provider calls (search, file-metadata lookup, chat generation,
batch submission and polling) as oracle functions passed to the embedded
operations.  Each embedded definition mirrors one function of the
repository; theorems at the end settle the specification claims.
-/

namespace KBM

/-- Python strings, modelled as lists of characters so that `len`,
slicing and joining coincide with `List.length`, `List.take` and
`List.intercalate`. -/
abbrev PyStr := List Char

/-- Character list of a Lean string literal. -/
def pystr (s : String) : PyStr := s.data

/-- Digits of a natural number, as a Python-style decimal rendering. -/
def natChars (n : Nat) : PyStr := (toString n).data

/-- Decimal rendering of an integer. -/
def intChars (n : Int) : PyStr := (toString n).data

/-- Python `str.strip()`: remove leading and trailing whitespace. -/
def pyStrip (s : PyStr) : PyStr :=
  ((s.dropWhile Char.isWhitespace).reverse.dropWhile Char.isWhitespace).reverse

/-- JSON-like Python values as they appear in provider responses:
`None`, booleans, numbers, strings, lists and dicts. -/
inductive JVal where
  | null
  | bool (b : Bool)
  | num (q : ℚ)
  | str (s : PyStr)
  | arr (items : List JVal)
  | obj (fields : List (PyStr × JVal))

/-- First-match association-list lookup, the dict access used by the
embedded code (dict keys are unique, so first match is the match). -/
def lookupKey {α : Type} (fields : List (PyStr × α)) (k : PyStr) : Option α :=
  match fields with
  | [] => none
  | (k', v) :: rest => if k' = k then some v else lookupKey rest k

/-- Python `d.get(k)` / `k in d` on a dict value; `none` on missing keys
and on non-dict values. -/
def JVal.get? (v : JVal) (k : PyStr) : Option JVal :=
  match v with
  | .obj fields => lookupKey fields k
  | _ => none

/-- Python `d.get(k, default)`. -/
def JVal.getD (v : JVal) (k : PyStr) (d : JVal) : JVal :=
  (v.get? k).getD d

/-- Python truthiness of a JSON value. -/
def pyTruthy : JVal → Bool
  | .null => false
  | .bool b => b
  | .num q => if q = 0 then false else true
  | .str s => !s.isEmpty
  | .arr items => !items.isEmpty
  | .obj fields => !fields.isEmpty

/-- Python `str()` rendering as used by f-string interpolation.  Exact
for the string values that well-formed search hits carry in their
`filename` field, and for booleans and `None`; the numeric and container
renderings are nominal and no theorem depends on them. -/
def pyStrOfJVal : JVal → PyStr
  | .str s => s
  | .num q => if q.den = 1 then intChars q.num
              else intChars q.num ++ pystr "/" ++ natChars q.den
  | .bool true => pystr "True"
  | .bool false => pystr "False"
  | .null => pystr "None"
  | .arr _ => pystr "[...]"
  | .obj _ => pystr "\x7b...\x7d"

/-- Python `f"{x:.2f}"` on a score: fixed two-decimal rendering.  The
integer computation is `⌊q·100 + 1/2⌋`, rounding to the nearest
hundredth with ties upward (Python rounds the underlying binary float
half-to-even, which agrees on every score exercised here). -/
def formatFixed2 (q : ℚ) : PyStr :=
  let n : Int := (200 * q.num + q.den).fdiv (2 * q.den)
  let sign : PyStr := if n < 0 then pystr "-" else []
  let m : Nat := n.natAbs
  sign ++ natChars (m / 100) ++ pystr "." ++
    (if m % 100 < 10 then pystr "0" else []) ++ natChars (m % 100)

/-- Python exceptions that the embedded code can raise. -/
inductive PyErr where
  | typeError
deriving DecidableEq

/-- `v.get(k, [])` (also covering the `or []` idiom): the items of the
list stored under `k`, or `[]` when the key is missing or holds `None`.
Well-formed responses store arrays in these fields; other shapes are
modelled as the empty list. -/
def pyGetList (v : JVal) (k : PyStr) : List JVal :=
  match v.get? k with
  | some (.arr items) => items
  | _ => []

/-- `search_results.get("data", [])`. -/
def pyGetData (searchResults : JVal) : List JVal :=
  pyGetList searchResults (pystr "data")

/-- A chat message, as the dicts `{"role": ..., "content": ...}` passed
to the generation call. -/
structure ChatMessage where
  role : PyStr
  content : PyStr
deriving DecidableEq

end KBM

namespace KBM.VectorSearch

/-!  Embedding of `src/vector_search.py`. -/

open KBM

/-- The `texts` list accumulated by `extract_text_from_hit`: for each
dict part with a `"text"` key, the raw value of that key is appended,
whether or not it is a string.  The source's
`elif part.get("type") == "text" and "text" in part` branch is
unreachable (it requires `"text" in part`, which the first branch
already consumed) and contributes nothing. -/
def hitTexts : List JVal → List JVal
  | [] => []
  | part :: rest =>
    match part with
    | .obj _ =>
      match part.get? (pystr "text") with
      | some v => v :: hitTexts rest
      | none => hitTexts rest
    | _ => hitTexts rest

/-- The string contents of a list of values, provided every value is a
string. -/
def allStrings : List JVal → Option (List PyStr)
  | [] => some []
  | v :: rest =>
    match v with
    | .str s =>
      match allStrings rest with
      | some strs => some (s :: strs)
      | none => none
    | _ => none

/-- Python `sep.join(items)`: succeeds only when every item is a string,
raising `TypeError` otherwise. -/
def pyJoinStrings (sep : PyStr) (items : List JVal) : Except PyErr PyStr :=
  match allStrings items with
  | some strs => .ok (List.intercalate sep strs)
  | none => .error .typeError

/-- `vector_search.extract_text_from_hit`: collect the `"text"` values of
the dict parts under `"content"` and return `"\n".join(texts).strip()`.
A non-string `"text"` value reaches the join unchecked and raises
`TypeError`. -/
def extract_text_from_hit (hit : JVal) : Except PyErr PyStr :=
  match pyJoinStrings (pystr "\n") (hitTexts (pyGetList hit (pystr "content"))) with
  | .ok s => .ok (pyStrip s)
  | .error e => .error e

/-- The truncation marker appended by `extract_context`. -/
def truncMarker : PyStr := pystr "\n\n[... truncado por límite de tokens ...]"

/-- The default block separator of `extract_context`. -/
def defaultSeparator : PyStr := pystr "\n\n---\n\n"

/-- The final truncation step of `extract_context`: hard-truncate the
joined string at `max_chars` and append the marker, only when it is
over budget. -/
def pyTruncate (s : PyStr) (maxChars : Nat) : PyStr :=
  if s.length > maxChars then s.take maxChars ++ truncMarker else s

/-- One snippet of `extract_context` for a surviving hit: the labeled
block when `include_source` is set (its f-string raises on a non-number
score), else the unlabeled block. -/
def snippet (includeSource : Bool) (i : Nat) (hit : JVal) (text : PyStr) :
    Except PyErr PyStr :=
  if includeSource then
    let filename := pyStrOfJVal (hit.getD (pystr "filename") (.str (pystr "unknown")))
    match hit.getD (pystr "score") (.num 0) with
    | .num q => .ok (pystr "[KB#" ++ natChars i ++ pystr " - " ++ filename ++
        pystr " (score: " ++ formatFixed2 q ++ pystr ")]" ++ pystr "\n" ++ text)
    | _ => .error .typeError
  else
    .ok (pystr "[KB#" ++ natChars i ++ pystr "]" ++ pystr "\n" ++ text)

/-- The `for i, hit in enumerate(search_results.get("data", []), start=1)`
loop of `extract_context`: `i` advances on every hit, while only hits
with non-empty extracted text contribute a snippet. -/
def snippetsLoop (includeSource : Bool) : List JVal → Nat → Except PyErr (List PyStr)
  | [], _ => .ok []
  | hit :: rest, i =>
    match extract_text_from_hit hit with
    | .error e => .error e
    | .ok text =>
      if text = [] then
        snippetsLoop includeSource rest (i + 1)
      else
        match snippet includeSource i hit text with
        | .error e => .error e
        | .ok s =>
          match snippetsLoop includeSource rest (i + 1) with
          | .error e => .error e
          | .ok ss => .ok (s :: ss)

/-- `vector_search.extract_context`: format the surviving hits, join with
the separator, and truncate the joined string to `max_chars`. -/
def extract_context (searchResults : JVal) (maxChars : Nat)
    (includeSource : Bool) (separator : PyStr) : Except PyErr PyStr :=
  match snippetsLoop includeSource (pyGetData searchResults) 1 with
  | .error e => .error e
  | .ok snippets => .ok (pyTruncate (List.intercalate separator snippets) maxChars)

end KBM.VectorSearch

namespace KBM.VectorSearch

/-!  Shape predicates and total counterparts used to state properties of
`extract_context` on hits whose extraction succeeds. -/

/-- A content part on which `extract_text_from_hit` cannot raise: if it
is a dict with a `"text"` key, that key holds a string. -/
def goodPart (p : JVal) : Bool :=
  match p with
  | .obj _ =>
    match p.get? (pystr "text") with
    | some (.str _) => true
    | none => true
    | some _ => false
  | _ => true

/-- A hit on which the `extract_context` loop body cannot raise: the
`"content"` field, when present, is an array of good parts, and the
`"score"` field, when present, is a number. -/
def goodHit (hit : JVal) : Bool :=
  (match hit.get? (pystr "content") with
   | none => true
   | some (.arr parts) => parts.all goodPart
   | some _ => false) &&
  (match hit.get? (pystr "score") with
   | none => true
   | some (.num _) => true
   | some _ => false)

/-- The string a good part contributes to the texts list, if any. -/
def partTextOf (p : JVal) : Option PyStr :=
  match p with
  | .obj _ =>
    match p.get? (pystr "text") with
    | some (.str s) => some s
    | _ => none
  | _ => none

/-- The text `extract_text_from_hit` returns on a good hit. -/
def hitTextOf (hit : JVal) : PyStr :=
  pyStrip (List.intercalate (pystr "\n")
    ((pyGetList hit (pystr "content")).filterMap partTextOf))

/-- The score a good hit renders: its `"score"` value, `0` when absent. -/
def scoreOf (hit : JVal) : ℚ :=
  match hit.get? (pystr "score") with
  | some (.num q) => q
  | _ => 0

/-- The filename rendering of a hit, `"unknown"` when absent. -/
def filenameOf (hit : JVal) : PyStr :=
  pyStrOfJVal (hit.getD (pystr "filename") (.str (pystr "unknown")))

/-- The block `extract_context` renders for the hit at 1-based input
position `i`. -/
def renderBlock (includeSource : Bool) (i : Nat) (hit : JVal) : PyStr :=
  if includeSource then
    pystr "[KB#" ++ natChars i ++ pystr " - " ++ filenameOf hit ++
      pystr " (score: " ++ formatFixed2 (scoreOf hit) ++ pystr ")]" ++
      pystr "\n" ++ hitTextOf hit
  else
    pystr "[KB#" ++ natChars i ++ pystr "]" ++ pystr "\n" ++ hitTextOf hit

end KBM.VectorSearch

namespace KBM.BackendApi

/-!  Embedding of `src/backend/api.py` (the `/api/query` handler and its
inner `extract_text_from_hit`). -/

open KBM

/-- The third branch of the backend `extract_text_from_hit` chain:
`p.get("type") == "text" and isinstance(p.get("value"), str)`. -/
def partTextTyped (p : JVal) : Option PyStr :=
  match p.get? (pystr "type"), p.get? (pystr "value") with
  | some (.str t), some (.str v) => if t = pystr "text" then some v else none
  | _, _ => none

/-- The `if`/`elif` chain of the backend `extract_text_from_hit`, per
content part: a string `"text"` value wins; else a dict `"text"` value
with a string `"value"` field; else the `type == "text"`/string `"value"`
variant; non-dict parts are skipped. -/
def partText (p : JVal) : Option PyStr :=
  match p with
  | .obj _ =>
    match p.get? (pystr "text") with
    | some (.str s) => some s
    | some (.obj tf) =>
      match lookupKey tf (pystr "value") with
      | some (.str v) => some v
      | _ => partTextTyped p
    | _ => partTextTyped p
  | _ => none

/-- `"\n".join(t.strip() for t in texts if t and t.strip())`. -/
def joinCleanParts (texts : List PyStr) : PyStr :=
  List.intercalate (pystr "\n")
    (texts.filterMap fun t =>
      if t ≠ [] ∧ pyStrip t ≠ [] then some (pyStrip t) else none)

/-- The backend `extract_text_from_hit`: run the shape chain over the
parts under `"content"`, strip each recognized text, drop empties, join
with newlines and strip the result. -/
def extract_text_from_hit (hit : JVal) : PyStr :=
  pyStrip (joinCleanParts ((pyGetList hit (pystr "content")).filterMap partText))

/-- Spec shape (a): a direct string `"text"` field. -/
def shapeDirect (p : JVal) : Option PyStr :=
  match p.get? (pystr "text") with
  | some (.str s) => some s
  | _ => none

/-- Spec shape (b): a dict `"text"` field with a string `"value"`. -/
def shapeNested (p : JVal) : Option PyStr :=
  match p.get? (pystr "text") with
  | some (.obj tf) =>
    match lookupKey tf (pystr "value") with
    | some (.str v) => some v
    | _ => none
  | _ => none

/-- Spec shape (c): the typed-object variant `type == "text"` with a
string `"value"`. -/
def shapeTyped (p : JVal) : Option PyStr := partTextTyped p

/-- The specification's formulation of per-part extraction: try shapes
(a), (b), (c) in order; the first success wins. -/
def specPartText (p : JVal) : Option PyStr :=
  ((shapeDirect p).orElse fun _ => shapeNested p).orElse fun _ => shapeTyped p

end KBM.BackendApi

namespace KBM.BatchManager

/-!  Embedding of `src/batch_manager.py`.  The provider client is an
oracle: `create` maps a submitted request to the batch descriptor the
provider reports, and a poll trace maps the index of each
`get_batch_status` call to the descriptor it returns. -/

open KBM

/-- Lifecycle states of a file batch. -/
inductive BatchStatus where
  | queued
  | in_progress
  | completed
  | failed
  | cancelled
deriving DecidableEq

/-- Per-file counters of a batch descriptor. -/
structure FileCounts where
  completed : Nat
  in_progress : Nat
  failed : Nat
  cancelled : Nat
  total : Nat
deriving DecidableEq

/-- A batch descriptor as reported by the provider. -/
structure VSFileBatch where
  id : PyStr
  status : BatchStatus
  file_counts : Option FileCounts
deriving DecidableEq

/-- The request `create_file_batch` hands to
`client.vector_stores.file_batches.create`. -/
structure CreateRequest where
  vector_store_id : PyStr
  file_ids : List PyStr
  chunking_strategy : Option JVal

/-- Outcome space of batch creation.  The `invalidRequest` alternative is
the failure mode named by the specification; the code has no path that
produces it. -/
inductive CreateOutcome where
  | submitted (req : CreateRequest) (batchId : PyStr)
  | invalidRequest

/-- `batch_manager.create_file_batch`: build the request (the
`chunking_strategy` key is added only when the argument is truthy),
submit it to the provider, and return the reported batch id.  There is
no validation of `file_ids`. -/
def create_file_batch (provider : CreateRequest → VSFileBatch)
    (vectorStoreId : PyStr) (fileIds : List PyStr)
    (chunkingStrategy : Option JVal) : CreateOutcome :=
  let req : CreateRequest :=
    ⟨vectorStoreId, fileIds,
      match chunkingStrategy with
      | some cs => if pyTruthy cs then some cs else none
      | none => none⟩
  .submitted req (provider req).id

/-- Whether a status is one of the terminal states `wait_for_batch`
returns on. -/
def isTerminal : BatchStatus → Bool
  | .completed => true
  | .failed => true
  | .cancelled => true
  | _ => false

/-- The string `wait_for_batch` returns for a status. -/
def statusStr : BatchStatus → PyStr
  | .queued => pystr "queued"
  | .in_progress => pystr "in_progress"
  | .completed => pystr "completed"
  | .failed => pystr "failed"
  | .cancelled => pystr "cancelled"

/-- Observable outcomes of `wait_for_batch`: a normal return, the
`TimeoutError` (whose message interpolates `timeout_seconds` and the
last polled `batch.status`, and nothing else), or the unbound-local
failure of reading `batch` before the first poll assigned it. -/
inductive WaitOutcome where
  | ret (status : PyStr)
  | timeoutError (timeoutSeconds : Nat) (lastStatus : BatchStatus)
  | unboundLocalError
deriving DecidableEq

/-- The `while True` loop of `wait_for_batch`.  `elapsed k` is
`int(time.time() - start_time)` observed at the top of iteration `k`
(wall-clock growth across the poll and the `time.sleep(poll_interval)`
is part of `elapsed`); `poll k` is the descriptor the k-th
`get_batch_status` call returns; `last` is the loop-local `batch`
variable from the previous iteration.  `fuel` bounds how many
iterations are modelled: `none` means the loop was still running. -/
def wait_loop (poll : Nat → VSFileBatch) (elapsed : Nat → Nat)
    (timeoutSeconds : Nat) :
    Option VSFileBatch → Nat → Nat → Option WaitOutcome
  | _, _, 0 => none
  | last, k, fuel + 1 =>
    if timeoutSeconds ≤ elapsed k then
      match last with
      | none => some .unboundLocalError
      | some b => some (.timeoutError timeoutSeconds b.status)
    else
      let b := poll k
      if b.status = .completed then some (.ret (pystr "completed"))
      else if b.status = .failed then some (.ret (pystr "failed"))
      else if b.status = .cancelled then some (.ret (pystr "cancelled"))
      else wait_loop poll elapsed timeoutSeconds (some b) (k + 1) fuel

/-- `batch_manager.wait_for_batch`, entered with no poll yet taken. -/
def wait_for_batch (poll : Nat → VSFileBatch) (elapsed : Nat → Nat)
    (timeoutSeconds : Nat) (fuel : Nat) : Option WaitOutcome :=
  wait_loop poll elapsed timeoutSeconds none 0 fuel

/-- The value of the loop-local `batch` variable at the top of iteration
`k`: unassigned before the first poll, else the previous poll's result. -/
def lastOf (poll : Nat → VSFileBatch) (k : Nat) : Option VSFileBatch :=
  match k with
  | 0 => none
  | j + 1 => some (poll j)

/-- Whether a wait outcome is the `TimeoutError` failure. -/
def isTimeoutError : WaitOutcome → Bool
  | .timeoutError _ _ => true
  | _ => false

end KBM.BatchManager

namespace KBM.RagAssistant

/-!  Embedding of `src/backend/rag_assistant.py` (`RAGAssistant.answer`).
The search step is represented by its result (the raw search-response
value); the chat completion call is an oracle from the composed message
list to the model's reply. -/

open KBM KBM.VectorSearch

/-- `DEFAULT_SYSTEM_PROMPT` of `rag_assistant.py`. -/
def DEFAULT_SYSTEM_PROMPT : PyStr :=
  pystr "You are a helpful customer service assistant.\nAnswer questions using ONLY the provided knowledge base context.\nIf the information is not in the context, say \"I don\x27t have that information in my knowledge base.\"\nBe concise, accurate, and friendly."

/-- Prefix of the system message that embeds the retrieved context. -/
def kbContextPrefix : PyStr := pystr "KNOWLEDGE BASE CONTEXT:\n"

/-- Prefix of the system message that embeds the optional extra context. -/
def additionalContextPrefix : PyStr := pystr "ADDITIONAL CONTEXT:\n"

/-- `hit.get("filename", "unknown")`, kept as the raw value the source
stores in the sources list. -/
def hitFilenameOrUnknown (hit : JVal) : JVal :=
  hit.getD (pystr "filename") (.str (pystr "unknown"))

/-- The `RAGResponse` dataclass. -/
structure RAGResponse where
  answer : PyStr
  context : PyStr
  sources : List JVal
  query : PyStr
  model : PyStr
  search_results : JVal

/-- Result of one `answer()` call, together with the provenance needed
by the claims: whether the chat completion call was made, and with which
messages. -/
structure AnswerOut where
  response : RAGResponse
  generationInvoked : Bool
  messages : List ChatMessage

/-- `RAGAssistant.answer`: extract the context from the search results
(`include_source` and the separator at their defaults), collect one
source entry per hit, compose the messages — the knowledge-base context
message only when the context is non-empty, the additional-context
message only when that argument is truthy — and always invoke the chat
completion call on them. -/
def answer (gen : List ChatMessage → PyStr) (systemPrompt : PyStr)
    (model : PyStr) (maxContextChars : Nat) (searchResults : JVal)
    (query : PyStr) (additionalContext : Option PyStr) :
    Except PyErr AnswerOut :=
  match extract_context searchResults maxContextChars true defaultSeparator with
  | .error e => .error e
  | .ok context =>
    let sources := (pyGetData searchResults).map hitFilenameOrUnknown
    let messages : List ChatMessage :=
      [⟨pystr "system", systemPrompt⟩]
      ++ (if context ≠ [] then [⟨pystr "system", kbContextPrefix ++ context⟩] else [])
      ++ (match additionalContext with
          | some ac => if ac ≠ [] then [⟨pystr "system", additionalContextPrefix ++ ac⟩] else []
          | none => [])
      ++ [⟨pystr "user", query⟩]
    let answerText := gen messages
    .ok ⟨⟨answerText, context, sources, query, model, searchResults⟩, true, messages⟩

end KBM.RagAssistant

namespace KBM.BackendApi

/-!  The `/api/query` handler `query_rag` of `src/backend/api.py`.  The
search call is represented by its JSON response; `retrieve` is the
`client.files.retrieve` oracle mapping a file id to its filename
(`none` when the lookup raises, which the handler swallows); `gen` is
the chat completion oracle. -/

/-- The fallback answer returned when no context was assembled. -/
def noRelevantInfoAnswer : PyStr :=
  pystr "No encontré información relevante en los documentos para responder a tu pregunta."

/-- The system prompt of the `/api/query` handler. -/
def backendSystemPrompt : PyStr :=
  pystr "Eres un asistente útil que responde preguntas basándote ÚNICAMENTE en el contexto proporcionado de la base de conocimiento.\n\nREGLAS:\n- Usa SOLO la información del contexto KB que se te proporciona\n- Si la información no está en el contexto, di claramente que no tienes esa información\n- Sé preciso, conciso y amable\n- Responde en el mismo idioma que la pregunta"

/-- Prefix of the system message embedding the context. -/
def backendContextPrefix : PyStr := pystr "CONTEXTO DE LA BASE DE CONOCIMIENTO:\n\n"

/-- The separator joining context chunks. -/
def chunkSeparator : PyStr := pystr "\n\n---\n\n"

/-- `hit.get("file_id")` as used in `if file_id and ...`: a non-empty
string id, or absent.  `None`, empty and non-string ids never produce a
filename (a non-string id would make the metadata lookup raise, which
the handler swallows), so they are modelled as absent. -/
def getFileId (hit : JVal) : Option PyStr :=
  match hit.get? (pystr "file_id") with
  | some (.str s) => if s = [] then none else some s
  | _ => none

/-- Loop state of the chunk/source collection in `query_rag`. -/
structure QueryLoopState where
  chunks : List PyStr
  sources : List PyStr
  fileIdToName : List (PyStr × PyStr)

/-- One iteration of the `for i, hit in enumerate(...[:10], start=1)`
body: hits with extractable text contribute a `[Chunk #i]` block, and —
when their file id resolves to a filename not seen before — a source
entry; the filename cache prevents repeated lookups. -/
def queryStep (retrieve : PyStr → Option PyStr) (hit : JVal) (i : Nat)
    (st : QueryLoopState) : QueryLoopState :=
  let txt := extract_text_from_hit hit
  if txt = [] then st
  else
    let chunks' := st.chunks ++ [pystr "[Chunk #" ++ natChars i ++ pystr "]" ++ pystr "\n" ++ txt]
    match getFileId hit with
    | none => { st with chunks := chunks' }
    | some fid =>
      match lookupKey st.fileIdToName fid with
      | some _ => { st with chunks := chunks' }
      | none =>
        match retrieve fid with
        | none => { st with chunks := chunks' }
        | some name =>
          { chunks := chunks'
            sources := if name ∈ st.sources then st.sources else st.sources ++ [name]
            fileIdToName := st.fileIdToName ++ [(fid, name)] }

/-- The whole collection loop, `i` counting every hit from `start=1`. -/
def queryLoop (retrieve : PyStr → Option PyStr) :
    List JVal → Nat → QueryLoopState → QueryLoopState
  | [], _, st => st
  | hit :: rest, i, st => queryLoop retrieve rest (i + 1) (queryStep retrieve hit i st)

/-- The loop state `query_rag` reaches on a search response: only the
top ten hits of the data list are processed. -/
def queryRagState (retrieve : PyStr → Option PyStr) (searchData : JVal) :
    QueryLoopState :=
  queryLoop retrieve ((pyGetData searchData).take 10) 1 ⟨[], [], []⟩

/-- The body of the `QueryResponse` the handler returns. -/
structure QueryResponse where
  success : Bool
  answer : PyStr
  sources : List PyStr
  context : PyStr
deriving DecidableEq

/-- Result of one `/api/query` call, with the generation-call provenance
the claims need. -/
structure QueryRagOut where
  response : QueryResponse
  generationInvoked : Bool
deriving DecidableEq

/-- `query_rag`: collect chunks and sources from the top ten hits, join
and cap the context at 8000 characters; when it is empty, short-circuit
with the fixed fallback answer, empty sources and empty context, never
touching the generation call; otherwise compose the three messages,
invoke generation, and return its reply with the sources and a 500-char
context excerpt. -/
def query_rag (retrieve : PyStr → Option PyStr)
    (gen : List ChatMessage → PyStr) (searchData : JVal) (query : PyStr) :
    QueryRagOut :=
  let st := queryRagState retrieve searchData
  let context := (List.intercalate chunkSeparator st.chunks).take 8000
  if context = [] then
    ⟨⟨true, noRelevantInfoAnswer, [], []⟩, false⟩
  else
    let messages : List ChatMessage :=
      [⟨pystr "system", backendSystemPrompt⟩,
       ⟨pystr "system", backendContextPrefix ++ context⟩,
       ⟨pystr "user", query⟩]
    let answerText := gen messages
    ⟨⟨true, answerText, st.sources,
      if context.length > 500 then context.take 500 ++ pystr "..." else context⟩,
      true⟩

end KBM.BackendApi

namespace KBM.Fixtures

/-!  Concrete values used by the counterexample and witness theorems. -/

open KBM KBM.VectorSearch KBM.BatchManager KBM.BackendApi

/-- A hit from `a.md` with text `"A"` and score `0.9`. -/
def hitA1 : JVal := .obj [(pystr "file_id", .str (pystr "file-a")),
  (pystr "filename", .str (pystr "a.md")),
  (pystr "score", .num (mkRat 9 10)),
  (pystr "content", .arr [.obj [(pystr "text", .str (pystr "A"))]])]

/-- A second hit from the same file `a.md`, with text `"B"`. -/
def hitA2 : JVal := .obj [(pystr "file_id", .str (pystr "file-a")),
  (pystr "filename", .str (pystr "a.md")),
  (pystr "score", .num (mkRat 8 10)),
  (pystr "content", .arr [.obj [(pystr "text", .str (pystr "B"))]])]

/-- A hit from `b.md` with text `"B"` and score `0.9`. -/
def hitB : JVal := .obj [(pystr "filename", .str (pystr "b.md")),
  (pystr "score", .num (mkRat 9 10)),
  (pystr "content", .arr [.obj [(pystr "text", .str (pystr "B"))]])]

/-- A hit with no content parts: its extracted text is empty, so
`extract_context` drops it. -/
def hitEmpty : JVal := .obj [(pystr "content", .arr [])]

/-- A hit whose single content part carries the nested provider shape
`{"text": {"value": "x"}}`. -/
def hitNested : JVal := .obj [(pystr "content",
  .arr [.obj [(pystr "text", .obj [(pystr "value", .str (pystr "x"))])]])]

/-- A search response whose first hit is dropped and whose second hit
survives. -/
def srGap : JVal := .obj [(pystr "data", .arr [hitEmpty, hitB])]

/-- A search response containing a good hit followed by the
nested-shape hit. -/
def srWithNested : JVal := .obj [(pystr "data", .arr [hitB, hitNested])]

/-- A search response with zero hits. -/
def srEmpty : JVal := .obj [(pystr "data", .arr [])]

/-- A search response with two hits from the same file. -/
def srDup : JVal := .obj [(pystr "data", .arr [hitA1, hitA2])]

/-- A generation oracle returning a fixed reply. -/
def genConst : List ChatMessage → PyStr := fun _ => pystr "GEN"

/-- A filename-lookup oracle whose every lookup fails. -/
def retrieveNone : PyStr → Option PyStr := fun _ => none

/-- A provider stub acknowledging every batch creation. -/
def demoProvider : CreateRequest → VSFileBatch :=
  fun _ => ⟨pystr "vsfb_demo", .in_progress, none⟩

/-- A poll trace that always reports `completed` with one failed file
out of two. -/
def pollCompletedPartial : Nat → VSFileBatch :=
  fun _ => ⟨pystr "vsfb_1", .completed, some ⟨1, 0, 1, 0, 2⟩⟩

/-- A poll trace of a batch that never leaves `in_progress`. -/
def pollInProgress : Nat → VSFileBatch :=
  fun _ => ⟨pystr "vsfb_1", .in_progress, some ⟨0, 2, 0, 0, 2⟩⟩

/-- A wall clock advancing one second per loop iteration. -/
def elapsedId : Nat → Nat := fun k => k

end KBM.Fixtures

namespace KBM

open KBM.VectorSearch

/-!  Lemmas about `vector_search.extract_context` on well-shaped hits. -/

theorem allStrings_hitTexts (parts : List JVal) (h : parts.all goodPart = true) :
    allStrings (hitTexts parts) = some (parts.filterMap partTextOf) := by
  induction parts with
  | nil => rfl
  | cons p rest ih =>
    rw [List.all_cons, Bool.and_eq_true] at h
    obtain ⟨hp, hrest⟩ := h
    have ihr := ih hrest
    cases p with
    | null => simpa [hitTexts, List.filterMap_cons, partTextOf] using ihr
    | bool b => simpa [hitTexts, List.filterMap_cons, partTextOf] using ihr
    | num q => simpa [hitTexts, List.filterMap_cons, partTextOf] using ihr
    | str s => simpa [hitTexts, List.filterMap_cons, partTextOf] using ihr
    | arr items => simpa [hitTexts, List.filterMap_cons, partTextOf] using ihr
    | obj fields =>
      cases hq : lookupKey fields (pystr "text") with
      | none =>
        simpa [hitTexts, List.filterMap_cons, partTextOf, JVal.get?, hq] using ihr
      | some v =>
        cases v with
        | str s =>
          simp [hitTexts, List.filterMap_cons, partTextOf, JVal.get?, hq, allStrings, ihr]
        | null => simp [goodPart, JVal.get?, hq] at hp
        | bool b => simp [goodPart, JVal.get?, hq] at hp
        | num q => simp [goodPart, JVal.get?, hq] at hp
        | arr items => simp [goodPart, JVal.get?, hq] at hp
        | obj f2 => simp [goodPart, JVal.get?, hq] at hp

theorem extract_text_ok (hit : JVal) (h : goodHit hit = true) :
    extract_text_from_hit hit = .ok (hitTextOf hit) := by
  rw [goodHit, Bool.and_eq_true] at h
  obtain ⟨hc, _⟩ := h
  unfold extract_text_from_hit hitTextOf pyJoinStrings
  cases hit with
  | obj fields =>
    cases hq : lookupKey fields (pystr "content") with
    | none => simp [pyGetList, JVal.get?, hq, allStrings, List.intercalate]
    | some v =>
      cases v with
      | arr parts =>
        have : parts.all goodPart = true := by
          simpa [JVal.get?, hq] using hc
        simp [pyGetList, JVal.get?, hq, allStrings_hitTexts parts this]
      | null => simp [JVal.get?, hq] at hc
      | bool b => simp [JVal.get?, hq] at hc
      | num q => simp [JVal.get?, hq] at hc
      | str s => simp [JVal.get?, hq] at hc
      | obj f2 => simp [JVal.get?, hq] at hc
  | null => simp [pyGetList, JVal.get?, allStrings, List.intercalate]
  | bool b => simp [pyGetList, JVal.get?, allStrings, List.intercalate]
  | num q => simp [pyGetList, JVal.get?, allStrings, List.intercalate]
  | str s => simp [pyGetList, JVal.get?, allStrings, List.intercalate]
  | arr items => simp [pyGetList, JVal.get?, allStrings, List.intercalate]

theorem snippet_ok (incl : Bool) (i : Nat) (hit : JVal) (h : goodHit hit = true) :
    snippet incl i hit (hitTextOf hit) = .ok (renderBlock incl i hit) := by
  rw [goodHit, Bool.and_eq_true] at h
  obtain ⟨_, hs⟩ := h
  cases incl with
  | false => simp [snippet, renderBlock]
  | true =>
    cases hq : hit.get? (pystr "score") with
    | none =>
      simp [snippet, renderBlock, JVal.getD, filenameOf, scoreOf, hq]
    | some v =>
      cases v with
      | num q => simp [snippet, renderBlock, JVal.getD, filenameOf, scoreOf, hq]
      | null => simp [hq] at hs
      | bool b => simp [hq] at hs
      | str s => simp [hq] at hs
      | arr items => simp [hq] at hs
      | obj f2 => simp [hq] at hs

theorem snippetsLoop_good (incl : Bool) (hits : List JVal)
    (h : ∀ hit ∈ hits, goodHit hit = true) (i : Nat) :
    snippetsLoop incl hits i = .ok ((hits.enumFrom i).filterMap fun p =>
      if hitTextOf p.2 = [] then none else some (renderBlock incl p.1 p.2)) := by
  induction hits generalizing i with
  | nil => rfl
  | cons hit rest ih =>
    have hh := h hit (List.mem_cons_self hit rest)
    have hr : ∀ x ∈ rest, goodHit x = true := fun x hx => h x (List.mem_cons_of_mem hit hx)
    by_cases ht : hitTextOf hit = []
    · simp [snippetsLoop, extract_text_ok hit hh, ht, List.enumFrom,
        List.filterMap_cons, ih hr (i + 1)]
    · simp [snippetsLoop, extract_text_ok hit hh, ht, snippet_ok incl i hit hh,
        List.enumFrom, List.filterMap_cons, ih hr (i + 1)]

/-- C7 (amended): `extract_context` renders the surviving hits with the
claimed block formats, but ranks them by their 1-based position in the
input sequence: the index runs over every hit (`enumFrom 1`) and dropped
hits are filtered out afterwards, so a dropped hit still consumes its
rank number and the surviving blocks can skip numbers. -/
theorem extract_context_numbers_by_input_position (searchResults : JVal)
    (maxChars : Nat) (incl : Bool) (sep : PyStr)
    (h : ∀ hit ∈ pyGetData searchResults, goodHit hit = true) :
    extract_context searchResults maxChars incl sep =
      .ok (pyTruncate (List.intercalate sep
        (((pyGetData searchResults).enumFrom 1).filterMap fun p =>
          if hitTextOf p.2 = [] then none
          else some (renderBlock incl p.1 p.2))) maxChars) := by
  unfold extract_context
  rw [snippetsLoop_good incl (pyGetData searchResults) h 1]

/-- C7 witness: on a concrete response whose first hit is dropped and
whose second hit survives, the theorem applies and the surviving block
is labeled `KB#2`. -/
theorem extract_context_numbers_by_input_position_witness :
    extract_context Fixtures.srGap 4000 true defaultSeparator =
      .ok (pyTruncate (List.intercalate defaultSeparator
        (((pyGetData Fixtures.srGap).enumFrom 1).filterMap fun p =>
          if hitTextOf p.2 = [] then none
          else some (renderBlock true p.1 p.2))) 4000) :=
  extract_context_numbers_by_input_position Fixtures.srGap 4000 true
    defaultSeparator (by decide)

/-- C7 counterexample: with a dropped first hit, the only surviving hit
is rendered as `KB#2`, not renumbered to `KB#1` as consecutive 1-based
numbering of the survivors would require. -/
theorem extract_context_rank_gap_counterexample :
    extract_context Fixtures.srGap 4000 true defaultSeparator =
      .ok (pystr "[KB#2 - b.md (score: 0.90)]\nB")
  ∧ extract_context Fixtures.srGap 4000 true defaultSeparator ≠
      .ok (pystr "[KB#1 - b.md (score: 0.90)]\nB") := by
  have h1 : extract_context Fixtures.srGap 4000 true defaultSeparator =
      .ok (pystr "[KB#2 - b.md (score: 0.90)]\nB") := rfl
  refine ⟨h1, fun hcontra => ?_⟩
  rw [h1] at hcontra
  exact absurd (Except.ok.inj hcontra) (by decide)

/-- C8 (confirmed): the assembled context is the plain join of the
snippet blocks whenever that join fits in `max_chars`, and in every case
its length is at most `max_chars` plus the length of the truncation
marker — truncation applies only to the final joined string. -/
theorem extract_context_truncation_law (searchResults : JVal)
    (maxChars : Nat) (incl : Bool) (sep : PyStr) (ss : List PyStr)
    (h : snippetsLoop incl (pyGetData searchResults) 1 = .ok ss) :
    extract_context searchResults maxChars incl sep =
      .ok (pyTruncate (List.intercalate sep ss) maxChars)
  ∧ (pyTruncate (List.intercalate sep ss) maxChars).length ≤
      maxChars + truncMarker.length
  ∧ ((List.intercalate sep ss).length ≤ maxChars →
      extract_context searchResults maxChars incl sep =
        .ok (List.intercalate sep ss)) := by
  refine ⟨?_, ?_, ?_⟩
  · unfold extract_context
    rw [h]
  · unfold pyTruncate
    split
    · simp only [List.length_append, List.length_take]
      omega
    · omega
  · intro hle
    have h1 : extract_context searchResults maxChars incl sep =
        .ok (pyTruncate (List.intercalate sep ss) maxChars) := by
      unfold extract_context
      rw [h]
    rw [h1]
    unfold pyTruncate
    rw [if_neg (by omega)]

/-- C8 witness: the theorem applied to a concrete two-hit response with
budget 4000; the join fits, so the output is the exact join. -/
theorem extract_context_truncation_law_witness :
    extract_context Fixtures.srDup 4000 true defaultSeparator =
      .ok (pyTruncate (List.intercalate defaultSeparator
        [pystr "[KB#1 - a.md (score: 0.90)]\nA",
         pystr "[KB#2 - a.md (score: 0.80)]\nB"]) 4000) :=
  (extract_context_truncation_law Fixtures.srDup 4000 true defaultSeparator
    [pystr "[KB#1 - a.md (score: 0.90)]\nA",
     pystr "[KB#2 - a.md (score: 0.80)]\nB"] rfl).1

/-- C9 (confirmed): `vector_search.extract_text_from_hit` appends a
non-string `"text"` value unchecked, so on the nested provider shape
`{"text": {"value": "x"}}` the newline join raises `TypeError`, and
`extract_context` on a response containing such a hit aborts instead of
dropping the hit. -/
theorem vector_search_nonstring_text_aborts :
    extract_text_from_hit Fixtures.hitNested = .error .typeError
  ∧ extract_context Fixtures.srWithNested 8000 true defaultSeparator =
      .error .typeError :=
  ⟨rfl, rfl⟩

/-- C3 (amended): the backend `extract_text_from_hit` implements exactly
the ordered shape chain — a part's text is the first success among
shape (a) direct string field, shape (b) nested object with a string
value field, shape (c) typed-object variant — and a hit's text is the
newline join of the recognized, stripped, non-empty parts, trimmed.
The `vector_search.py` function of the same name does not implement
shapes (b) and (c) (see the counterexample). -/
theorem backend_extract_text_shape_chain :
    (∀ p, BackendApi.partText p = BackendApi.specPartText p)
  ∧ (∀ hit, BackendApi.extract_text_from_hit hit =
      pyStrip (BackendApi.joinCleanParts
        ((pyGetList hit (pystr "content")).filterMap BackendApi.specPartText))) := by
  have hpart : ∀ p, BackendApi.partText p = BackendApi.specPartText p := by
    intro p
    cases p with
    | null => rfl
    | bool b => rfl
    | num q => rfl
    | str s => rfl
    | arr items => rfl
    | obj fields =>
      show BackendApi.partText (.obj fields) = BackendApi.specPartText (.obj fields)
      cases hq : lookupKey fields (pystr "text") with
      | none =>
        simp [BackendApi.partText, BackendApi.specPartText, BackendApi.shapeDirect,
          BackendApi.shapeNested, BackendApi.shapeTyped, BackendApi.partTextTyped, JVal.get?, hq, Option.orElse]
      | some v =>
        cases v with
        | str s =>
          simp [BackendApi.partText, BackendApi.specPartText, BackendApi.shapeDirect,
            BackendApi.shapeNested, BackendApi.shapeTyped, BackendApi.partTextTyped, JVal.get?, hq, Option.orElse]
        | obj tf =>
          cases hv : lookupKey tf (pystr "value") with
          | none =>
            simp [BackendApi.partText, BackendApi.specPartText, BackendApi.shapeDirect,
              BackendApi.shapeNested, BackendApi.shapeTyped, BackendApi.partTextTyped, JVal.get?, hq, hv, Option.orElse]
          | some w =>
            cases w with
            | str t =>
              simp [BackendApi.partText, BackendApi.specPartText, BackendApi.shapeDirect,
                BackendApi.shapeNested, BackendApi.shapeTyped, BackendApi.partTextTyped, JVal.get?, hq, hv, Option.orElse]
            | null =>
              simp [BackendApi.partText, BackendApi.specPartText, BackendApi.shapeDirect,
                BackendApi.shapeNested, BackendApi.shapeTyped, BackendApi.partTextTyped, JVal.get?, hq, hv, Option.orElse]
            | bool b =>
              simp [BackendApi.partText, BackendApi.specPartText, BackendApi.shapeDirect,
                BackendApi.shapeNested, BackendApi.shapeTyped, BackendApi.partTextTyped, JVal.get?, hq, hv, Option.orElse]
            | num q2 =>
              simp [BackendApi.partText, BackendApi.specPartText, BackendApi.shapeDirect,
                BackendApi.shapeNested, BackendApi.shapeTyped, BackendApi.partTextTyped, JVal.get?, hq, hv, Option.orElse]
            | arr items =>
              simp [BackendApi.partText, BackendApi.specPartText, BackendApi.shapeDirect,
                BackendApi.shapeNested, BackendApi.shapeTyped, BackendApi.partTextTyped, JVal.get?, hq, hv, Option.orElse]
            | obj f3 =>
              simp [BackendApi.partText, BackendApi.specPartText, BackendApi.shapeDirect,
                BackendApi.shapeNested, BackendApi.shapeTyped, BackendApi.partTextTyped, JVal.get?, hq, hv, Option.orElse]
        | null =>
          simp [BackendApi.partText, BackendApi.specPartText, BackendApi.shapeDirect,
            BackendApi.shapeNested, BackendApi.shapeTyped, BackendApi.partTextTyped, JVal.get?, hq, Option.orElse]
        | bool b =>
          simp [BackendApi.partText, BackendApi.specPartText, BackendApi.shapeDirect,
            BackendApi.shapeNested, BackendApi.shapeTyped, BackendApi.partTextTyped, JVal.get?, hq, Option.orElse]
        | num q2 =>
          simp [BackendApi.partText, BackendApi.specPartText, BackendApi.shapeDirect,
            BackendApi.shapeNested, BackendApi.shapeTyped, BackendApi.partTextTyped, JVal.get?, hq, Option.orElse]
        | arr items =>
          simp [BackendApi.partText, BackendApi.specPartText, BackendApi.shapeDirect,
            BackendApi.shapeNested, BackendApi.shapeTyped, BackendApi.partTextTyped, JVal.get?, hq, Option.orElse]
  refine ⟨hpart, fun hit => ?_⟩
  unfold BackendApi.extract_text_from_hit
  rw [show BackendApi.partText = BackendApi.specPartText from funext hpart]

/-- C3 counterexample: on the nested shape (b) part
`{"text": {"value": "x"}}`, the backend function extracts `"x"`, while
the `vector_search.py` function cited by the same claim raises
`TypeError` instead of extracting the nested value — the claimed
ordered-shape fallback is not implemented there. -/
theorem vector_search_no_shape_fallback_counterexample :
    BackendApi.extract_text_from_hit Fixtures.hitNested = pystr "x"
  ∧ extract_text_from_hit Fixtures.hitNested = .error .typeError
  ∧ extract_text_from_hit Fixtures.hitNested ≠ .ok (pystr "x") := by
  have h2 : extract_text_from_hit Fixtures.hitNested = .error .typeError := rfl
  refine ⟨rfl, h2, fun hcontra => ?_⟩
  rw [h2] at hcontra
  exact Except.noConfusion hcontra

open KBM.BatchManager

/-!  Lemmas about the `wait_for_batch` polling loop. -/

theorem wait_loop_timeout_fires (poll : Nat → VSFileBatch) (elapsed : Nat → Nat)
    (t : Nat) (last : Option VSFileBatch) (k fuel : Nat) (h : t ≤ elapsed k) :
    wait_loop poll elapsed t last k (fuel + 1) =
      some (match last with
            | none => .unboundLocalError
            | some b => .timeoutError t b.status) := by
  unfold wait_loop
  rw [if_pos h]
  cases last with
  | none => rfl
  | some b => rfl

theorem wait_loop_terminal (poll : Nat → VSFileBatch) (elapsed : Nat → Nat)
    (t : Nat) (last : Option VSFileBatch) (k fuel : Nat)
    (h1 : elapsed k < t) (h2 : isTerminal (poll k).status = true) :
    wait_loop poll elapsed t last k (fuel + 1) =
      some (.ret (statusStr (poll k).status)) := by
  unfold wait_loop
  rw [if_neg (by omega)]
  cases hs : (poll k).status with
  | completed => simp [hs, statusStr]
  | failed => simp [hs, statusStr]
  | cancelled => simp [hs, statusStr]
  | queued => rw [hs] at h2; exact absurd h2 (by decide)
  | in_progress => rw [hs] at h2; exact absurd h2 (by decide)

theorem wait_loop_advance (poll : Nat → VSFileBatch) (elapsed : Nat → Nat)
    (t : Nat) (k fuel : Nat)
    (h : ∀ j, j < k → elapsed j < t ∧ isTerminal (poll j).status = false) :
    wait_loop poll elapsed t none 0 (k + fuel) =
      wait_loop poll elapsed t (lastOf poll k) k fuel := by
  induction k generalizing fuel with
  | zero =>
    rw [Nat.zero_add]
    rfl
  | succ k ih =>
    obtain ⟨he, hnt⟩ := h k (Nat.lt_succ_self k)
    have hprev : ∀ j, j < k → elapsed j < t ∧ isTerminal (poll j).status = false :=
      fun j hj => h j (hj.trans (Nat.lt_succ_self k))
    have harith : k + 1 + fuel = k + (fuel + 1) := by omega
    rw [harith, ih (fuel + 1) hprev]
    have hstep : ∀ last, wait_loop poll elapsed t last k (fuel + 1) =
        wait_loop poll elapsed t (some (poll k)) (k + 1) fuel := by
      intro last
      cases last with
      | none =>
        rw [wait_loop.eq_2, if_neg (by omega)]
        cases hs : (poll k).status with
        | completed => rw [hs] at hnt; exact absurd hnt (by decide)
        | failed => rw [hs] at hnt; exact absurd hnt (by decide)
        | cancelled => rw [hs] at hnt; exact absurd hnt (by decide)
        | queued => simp [hs]
        | in_progress => simp [hs]
      | some b =>
        rw [wait_loop.eq_3, if_neg (by omega)]
        cases hs : (poll k).status with
        | completed => rw [hs] at hnt; exact absurd hnt (by decide)
        | failed => rw [hs] at hnt; exact absurd hnt (by decide)
        | cancelled => rw [hs] at hnt; exact absurd hnt (by decide)
        | queued => simp [hs]
        | in_progress => simp [hs]
    rw [hstep (lastOf poll k)]
    rfl

theorem wait_loop_total (poll : Nat → VSFileBatch) (elapsed : Nat → Nat)
    (t : Nat) (hclock : ∀ j, j ≤ t → j ≤ elapsed j) :
    ∀ fuel k last, k + fuel = t + 1 → k ≤ t →
      wait_loop poll elapsed t last k fuel ≠ none := by
  intro fuel
  induction fuel with
  | zero => intro k last hkf hk; omega
  | succ fuel ih =>
    intro k last hkf hk
    by_cases hto : t ≤ elapsed k
    · rw [wait_loop_timeout_fires poll elapsed t last k fuel hto]
      simp
    · by_cases hterm : isTerminal (poll k).status = true
      · rw [wait_loop_terminal poll elapsed t last k fuel (by omega) hterm]
        simp
      · have hklt : k < t := by
          have := hclock k hk
          omega
        unfold wait_loop
        rw [if_neg (by omega)]
        cases hs : (poll k).status with
        | completed => exact absurd (by rw [hs]; rfl) hterm
        | failed => exact absurd (by rw [hs]; rfl) hterm
        | cancelled => exact absurd (by rw [hs]; rfl) hterm
        | queued =>
          simp only [hs]
          exact ih (k + 1) (some (poll k)) (by omega) (by omega)
        | in_progress =>
          simp only [hs]
          exact ih (k + 1) (some (poll k)) (by omega) (by omega)

/-- C5 (confirmed): when `wait_for_batch` observes a poll whose status is
`completed` — every earlier poll non-terminal and the timeout not yet
reached — it returns `"completed"` whatever the descriptor's
`file_counts` say, in particular with `counts.failed > 0`; partial
per-file failure is never escalated to a different terminal status. -/
theorem wait_returns_completed_regardless_of_counts (poll : Nat → VSFileBatch)
    (elapsed : Nat → Nat) (t k fuel : Nat)
    (hprev : ∀ j, j < k → elapsed j < t ∧ isTerminal (poll j).status = false)
    (hk : elapsed k < t) (hc : (poll k).status = .completed) (hf : k < fuel) :
    wait_for_batch poll elapsed t fuel = some (.ret (pystr "completed")) := by
  obtain ⟨f, rfl⟩ : ∃ f, fuel = k + (f + 1) := ⟨fuel - k - 1, by omega⟩
  unfold wait_for_batch
  rw [wait_loop_advance poll elapsed t k (f + 1) hprev]
  rw [wait_loop_terminal poll elapsed t (lastOf poll k) k f hk (by rw [hc]; rfl)]
  rw [hc]
  rfl

/-- C5 witness: the spec scenario — the first poll reports `completed`
with counts `{completed: 1, failed: 1, in_progress: 0, cancelled: 0,
total: 2}` — and `wait_for_batch` returns `"completed"`. -/
theorem wait_returns_completed_regardless_of_counts_witness :
    (Fixtures.pollCompletedPartial 0).file_counts = some ⟨1, 0, 1, 0, 2⟩
  ∧ wait_for_batch Fixtures.pollCompletedPartial Fixtures.elapsedId 300 1 =
      some (.ret (pystr "completed")) :=
  ⟨rfl, wait_returns_completed_regardless_of_counts Fixtures.pollCompletedPartial
    Fixtures.elapsedId 300 0 1 (fun j hj => absurd hj (Nat.not_lt_zero j))
    (by decide) rfl (by decide)⟩

/-- C6 (amended): `wait_for_batch` never blocks indefinitely — with a
wall clock advancing at least a second per iteration it reaches an
outcome within `timeout + 1` polls; elapsed time reaching the timeout at
the top of an iteration after at least one poll raises `TimeoutError`
carrying the last observed status (the message carries no counts); a
terminal status is returned the moment it is observed; and when the
timeout check fires before any poll (e.g. `timeout_seconds ≤ 0`) the
failure is the unbound-local error, not `TimeoutError`. -/
theorem wait_timeout_behaviour (poll : Nat → VSFileBatch)
    (elapsed : Nat → Nat) (t : Nat) :
    ((∀ j, j ≤ t → j ≤ elapsed j) → wait_for_batch poll elapsed t (t + 1) ≠ none)
  ∧ (∀ k fuel, (∀ j, j < k → elapsed j < t ∧ isTerminal (poll j).status = false) →
      t ≤ elapsed k → k < fuel → 1 ≤ k →
      wait_for_batch poll elapsed t fuel =
        some (.timeoutError t (poll (k - 1)).status))
  ∧ (∀ k fuel, (∀ j, j < k → elapsed j < t ∧ isTerminal (poll j).status = false) →
      elapsed k < t → isTerminal (poll k).status = true → k < fuel →
      wait_for_batch poll elapsed t fuel = some (.ret (statusStr (poll k).status)))
  ∧ (∀ fuel, t ≤ elapsed 0 → 0 < fuel →
      wait_for_batch poll elapsed t fuel = some .unboundLocalError) := by
  refine ⟨?_, ?_, ?_, ?_⟩
  · intro hclock
    exact wait_loop_total poll elapsed t hclock (t + 1) 0 none (by omega) (Nat.zero_le t)
  · intro k fuel hprev hto hkf hk1
    obtain ⟨f, rfl⟩ : ∃ f, fuel = k + (f + 1) := ⟨fuel - k - 1, by omega⟩
    unfold wait_for_batch
    rw [wait_loop_advance poll elapsed t k (f + 1) hprev]
    rw [wait_loop_timeout_fires poll elapsed t (lastOf poll k) k f hto]
    obtain ⟨j, rfl⟩ : ∃ j, k = j + 1 := ⟨k - 1, by omega⟩
    simp [lastOf]
  · intro k fuel hprev hk hterm hkf
    obtain ⟨f, rfl⟩ : ∃ f, fuel = k + (f + 1) := ⟨fuel - k - 1, by omega⟩
    unfold wait_for_batch
    rw [wait_loop_advance poll elapsed t k (f + 1) hprev]
    exact wait_loop_terminal poll elapsed t (lastOf poll k) k f hk hterm
  · intro fuel h hf
    obtain ⟨f, rfl⟩ : ∃ f, fuel = f + 1 := ⟨fuel - 1, by omega⟩
    unfold wait_for_batch
    rw [wait_loop_timeout_fires poll elapsed t none 0 f h]

/-- C6 witness: a batch that never leaves `in_progress`, a clock ticking
one second per poll, and a 10-second timeout — `wait_for_batch` raises
`TimeoutError` carrying the last observed status on the iteration where
elapsed time reaches 10. -/
theorem wait_timeout_behaviour_witness :
    wait_for_batch Fixtures.pollInProgress Fixtures.elapsedId 10 11 =
      some (.timeoutError 10 .in_progress) :=
  (wait_timeout_behaviour Fixtures.pollInProgress Fixtures.elapsedId 10).2.1
    10 11 (fun j hj => ⟨hj, rfl⟩) (by decide) (by decide) (by decide)

/-- C10 (confirmed): whenever the timeout check fires on the first loop
iteration — e.g. with `timeout_seconds ≤ 0` — the `TimeoutError`
message reads the loop-local `batch` before any poll assigned it, so
`wait_for_batch` fails with the unbound-local error instead of
`TimeoutError`, and the provider is never polled. -/
theorem wait_unbound_local_on_first_iteration (poll : Nat → VSFileBatch)
    (elapsed : Nat → Nat) (t fuel : Nat) (h : t ≤ elapsed 0) :
    wait_for_batch poll elapsed t (fuel + 1) = some .unboundLocalError := by
  unfold wait_for_batch
  rw [wait_loop_timeout_fires poll elapsed t none 0 fuel h]

/-- C10 witness: with `timeout_seconds = 0` the check fires at once and
the call ends in the unbound-local failure. -/
theorem wait_unbound_local_on_first_iteration_witness :
    wait_for_batch Fixtures.pollInProgress Fixtures.elapsedId 0 1 =
      some .unboundLocalError :=
  wait_unbound_local_on_first_iteration Fixtures.pollInProgress
    Fixtures.elapsedId 0 0 (Nat.zero_le _)

/-- C4 (amended): `create_file_batch` performs no validation of
`file_ids`: every call — the empty list included — submits a request
carrying exactly the given ids to the external indexer and returns the
provider's batch id; the code has no local `InvalidRequest` failure
path (the spec's `InvalidRequest` on an empty file set can only
originate upstream). -/
theorem create_file_batch_always_submits (provider : CreateRequest → VSFileBatch)
    (vs : PyStr) (ids : List PyStr) (cs : Option JVal) :
    create_file_batch provider vs ids cs ≠ .invalidRequest
  ∧ ∃ req batchId, create_file_batch provider vs ids cs = .submitted req batchId
      ∧ req.vector_store_id = vs ∧ req.file_ids = ids := by
  constructor
  · intro h
    exact CreateOutcome.noConfusion h
  · exact ⟨_, _, rfl, rfl, rfl⟩

/-- C4 counterexample: called with an empty `file_ids` list,
`create_file_batch` does not fail with `InvalidRequest`; it submits the
empty batch to the external indexer and returns the provider's id. -/
theorem create_file_batch_empty_submits_counterexample :
    create_file_batch Fixtures.demoProvider (pystr "vs_1") [] none =
      .submitted ⟨pystr "vs_1", [], none⟩ (pystr "vsfb_demo")
  ∧ create_file_batch Fixtures.demoProvider (pystr "vs_1") [] none ≠
      .invalidRequest := by
  have h1 : create_file_batch Fixtures.demoProvider (pystr "vs_1") [] none =
      .submitted ⟨pystr "vs_1", [], none⟩ (pystr "vsfb_demo") := rfl
  exact ⟨h1, fun hc => CreateOutcome.noConfusion (h1.symm.trans hc)⟩

/-!  Lemmas about `RAGAssistant.answer` and the `query_rag` source
collection. -/

theorem answer_ok_shape (gen : List ChatMessage → PyStr) (sp model : PyStr)
    (mc : Nat) (sr : JVal) (q : PyStr) (ac : Option PyStr)
    (out : RagAssistant.AnswerOut)
    (h : RagAssistant.answer gen sp model mc sr q ac = .ok out) :
    out.generationInvoked = true ∧
    out.response.sources = (pyGetData sr).map RagAssistant.hitFilenameOrUnknown := by
  unfold RagAssistant.answer at h
  cases hc : VectorSearch.extract_context sr mc true VectorSearch.defaultSeparator with
  | error e =>
    rw [hc] at h
    exact Except.noConfusion h
  | ok ctx =>
    rw [hc] at h
    obtain rfl := Except.ok.inj h
    exact ⟨rfl, rfl⟩

theorem queryStep_sources (retrieve : PyStr → Option PyStr) (hit : JVal)
    (i : Nat) (st : BackendApi.QueryLoopState) :
    (BackendApi.queryStep retrieve hit i st).sources = st.sources
  ∨ ∃ fid name, BackendApi.getFileId hit = some fid ∧ retrieve fid = some name
      ∧ name ∉ st.sources
      ∧ (BackendApi.queryStep retrieve hit i st).sources = st.sources ++ [name] := by
  unfold BackendApi.queryStep
  by_cases ht : BackendApi.extract_text_from_hit hit = []
  · simp [ht]
  · rw [if_neg ht]
    cases hfid : BackendApi.getFileId hit with
    | none => simp
    | some fid =>
      cases hl : lookupKey st.fileIdToName fid with
      | some name => simp [hl]
      | none =>
        cases hr : retrieve fid with
        | none => simp [hl, hr]
        | some name =>
          by_cases hmem : name ∈ st.sources
          · simp [hl, hr, hmem]
          · right
            exact ⟨fid, name, rfl, hr, hmem, by simp [hl, hr, hmem]⟩

theorem queryLoop_sources (retrieve : PyStr → Option PyStr) (hits : List JVal) :
    ∀ (i : Nat) (st : BackendApi.QueryLoopState),
      (st.sources.Nodup → (BackendApi.queryLoop retrieve hits i st).sources.Nodup)
    ∧ (BackendApi.queryLoop retrieve hits i st).sources.length ≤
        st.sources.length + hits.length
    ∧ ∀ s ∈ (BackendApi.queryLoop retrieve hits i st).sources,
        s ∈ st.sources ∨ ∃ hit ∈ hits, ∃ fid,
          BackendApi.getFileId hit = some fid ∧ retrieve fid = some s := by
  induction hits with
  | nil =>
    intro i st
    exact ⟨fun h => h, by simp [BackendApi.queryLoop], fun s hs => .inl hs⟩
  | cons hit rest ih =>
    intro i st
    obtain ⟨h1, h2, h3⟩ := ih (i + 1) (BackendApi.queryStep retrieve hit i st)
    have hloop : BackendApi.queryLoop retrieve (hit :: rest) i st =
        BackendApi.queryLoop retrieve rest (i + 1)
          (BackendApi.queryStep retrieve hit i st) := rfl
    rw [hloop]
    rcases queryStep_sources retrieve hit i st with heq | ⟨fid, name, hfid, hret, hnot, heq⟩
    · refine ⟨fun hnd => h1 (by rw [heq]; exact hnd), ?_, ?_⟩
      · have h2' := h2
        rw [heq] at h2'
        simp only [List.length_cons]
        omega
      · intro s hs
        rcases h3 s hs with hmem | ⟨hit', hmem', fid, hf, hr⟩
        · rw [heq] at hmem
          exact .inl hmem
        · exact .inr ⟨hit', List.mem_cons_of_mem hit hmem', fid, hf, hr⟩
    · refine ⟨?_, ?_, ?_⟩
      · intro hnd
        refine h1 ?_
        rw [heq]
        simp [List.nodup_append, hnd, hnot]
      · have h2' := h2
        rw [heq] at h2'
        simp only [List.length_append, List.length_singleton, List.length_cons,
          List.length_nil] at h2' ⊢
        omega
      · intro s hs
        rcases h3 s hs with hmem | ⟨hit', hmem', fid', hf, hr⟩
        · rw [heq] at hmem
          rcases List.mem_append.mp hmem with hmem2 | hmem2
          · exact .inl hmem2
          · right
            have hs_eq : s = name := List.mem_singleton.mp hmem2
            subst hs_eq
            exact ⟨hit, List.mem_cons_self hit rest, fid, hfid, hret⟩
        · exact .inr ⟨hit', List.mem_cons_of_mem hit hmem', fid', hf, hr⟩

/-- C1 (amended): only the `/api/query` handler short-circuits on an
empty assembled context — it returns the fixed fallback answer with
empty sources and empty context without touching the generation call —
while `RAGAssistant.answer` never short-circuits: every successful call
invokes the generation oracle, even when the retrieved context is empty
(it merely omits the knowledge-base context message). -/
theorem empty_context_short_circuit :
    (∀ (retrieve : PyStr → Option PyStr) (gen : List ChatMessage → PyStr)
       (searchData : JVal) (query : PyStr),
       (List.intercalate BackendApi.chunkSeparator
         (BackendApi.queryRagState retrieve searchData).chunks).take 8000 = [] →
       BackendApi.query_rag retrieve gen searchData query =
         ⟨⟨true, BackendApi.noRelevantInfoAnswer, [], []⟩, false⟩)
  ∧ (∀ (gen : List ChatMessage → PyStr) (sp model : PyStr) (mc : Nat)
       (sr : JVal) (q : PyStr) (ac : Option PyStr)
       (out : RagAssistant.AnswerOut),
       RagAssistant.answer gen sp model mc sr q ac = .ok out →
       out.generationInvoked = true) := by
  constructor
  · intro retrieve gen searchData query h
    simp only [BackendApi.query_rag]
    rw [if_pos h]
  · intro gen sp model mc sr q ac out h
    exact (answer_ok_shape gen sp model mc sr q ac out h).1

/-- C1 witness: on a zero-hit response, `query_rag` returns the fixed
fallback without generating, while `RAGAssistant.answer` on the same
response still invokes generation. -/
theorem empty_context_short_circuit_witness :
    BackendApi.query_rag Fixtures.retrieveNone Fixtures.genConst
      Fixtures.srEmpty (pystr "q") =
      ⟨⟨true, BackendApi.noRelevantInfoAnswer, [], []⟩, false⟩
  ∧ (⟨⟨pystr "GEN", [], [], pystr "q", pystr "gpt-4.1", Fixtures.srEmpty⟩,
      true,
      [⟨pystr "system", RagAssistant.DEFAULT_SYSTEM_PROMPT⟩,
       ⟨pystr "user", pystr "q"⟩]⟩ : RagAssistant.AnswerOut).generationInvoked
      = true :=
  ⟨empty_context_short_circuit.1 Fixtures.retrieveNone Fixtures.genConst
      Fixtures.srEmpty (pystr "q") rfl,
   empty_context_short_circuit.2 Fixtures.genConst
      RagAssistant.DEFAULT_SYSTEM_PROMPT (pystr "gpt-4.1") 8000
      Fixtures.srEmpty (pystr "q") none
      ⟨⟨pystr "GEN", [], [], pystr "q", pystr "gpt-4.1", Fixtures.srEmpty⟩,
       true,
       [⟨pystr "system", RagAssistant.DEFAULT_SYSTEM_PROMPT⟩,
        ⟨pystr "user", pystr "q"⟩]⟩ rfl⟩

/-- C1 counterexample: on a search response with zero hits — an empty
assembled context — `RAGAssistant.answer` still invokes the generation
call (`generationInvoked = true`) and returns the oracle's reply `"GEN"`
rather than a fixed no-information answer. -/
theorem rag_answer_no_short_circuit_counterexample :
    RagAssistant.answer Fixtures.genConst RagAssistant.DEFAULT_SYSTEM_PROMPT
      (pystr "gpt-4.1") 8000 Fixtures.srEmpty (pystr "q") none =
    .ok ⟨⟨pystr "GEN", [], [], pystr "q", pystr "gpt-4.1", Fixtures.srEmpty⟩,
      true,
      [⟨pystr "system", RagAssistant.DEFAULT_SYSTEM_PROMPT⟩,
       ⟨pystr "user", pystr "q"⟩]⟩ := rfl

/-- C2 (amended): only `query_rag` deduplicates sources — its list is
duplicate-free in first-seen order, has at most one entry per processed
hit, and every entry is the looked-up filename of some top-ten hit's
file id.  `RAGAssistant.answer` does not deduplicate: its list has
exactly one entry per hit — the hit's filename, or the `"unknown"`
placeholder — so duplicates across hits from the same file persist. -/
theorem sources_dedup_behaviour :
    (∀ (gen : List ChatMessage → PyStr) (sp model : PyStr) (mc : Nat)
       (sr : JVal) (q : PyStr) (ac : Option PyStr)
       (out : RagAssistant.AnswerOut),
       RagAssistant.answer gen sp model mc sr q ac = .ok out →
       out.response.sources.length = (pyGetData sr).length
       ∧ ∀ s ∈ out.response.sources, ∃ hit ∈ pyGetData sr,
           s = RagAssistant.hitFilenameOrUnknown hit)
  ∧ (∀ (retrieve : PyStr → Option PyStr) (gen : List ChatMessage → PyStr)
       (sd : JVal) (q : PyStr),
       (BackendApi.query_rag retrieve gen sd q).response.sources.Nodup
       ∧ (BackendApi.query_rag retrieve gen sd q).response.sources.length ≤
           (pyGetData sd).length
       ∧ ∀ s ∈ (BackendApi.query_rag retrieve gen sd q).response.sources,
           ∃ hit ∈ (pyGetData sd).take 10, ∃ fid,
             BackendApi.getFileId hit = some fid ∧ retrieve fid = some s) := by
  constructor
  · intro gen sp model mc sr q ac out h
    have hsrc := (answer_ok_shape gen sp model mc sr q ac out h).2
    rw [hsrc]
    constructor
    · exact List.length_map (pyGetData sr) RagAssistant.hitFilenameOrUnknown
    · intro s hs
      obtain ⟨hit, hmem, rfl⟩ := List.mem_map.mp hs
      exact ⟨hit, hmem, rfl⟩
  · intro retrieve gen sd q
    obtain ⟨h1, h2, h3⟩ :=
      queryLoop_sources retrieve ((pyGetData sd).take 10) 1 ⟨[], [], []⟩
    have hst : BackendApi.queryRagState retrieve sd =
        BackendApi.queryLoop retrieve ((pyGetData sd).take 10) 1 ⟨[], [], []⟩ := rfl
    by_cases hctx : (List.intercalate BackendApi.chunkSeparator
        (BackendApi.queryRagState retrieve sd).chunks).take 8000 = []
    · simp only [BackendApi.query_rag, if_pos hctx]
      exact ⟨List.nodup_nil, by simp, fun s hs => absurd hs (List.not_mem_nil s)⟩
    · simp only [BackendApi.query_rag, if_neg hctx]
      rw [hst]
      refine ⟨h1 List.nodup_nil, ?_, ?_⟩
      · calc (BackendApi.queryLoop retrieve ((pyGetData sd).take 10) 1
              ⟨[], [], []⟩).sources.length ≤
              (⟨[], [], []⟩ : BackendApi.QueryLoopState).sources.length +
                ((pyGetData sd).take 10).length := h2
          _ = ((pyGetData sd).take 10).length := by simp
          _ ≤ (pyGetData sd).length := (List.length_take 10 (pyGetData sd)).le.trans
              (min_le_right 10 (pyGetData sd).length)
      · intro s hs
        rcases h3 s hs with hmem | hsome
        · exact absurd hmem (List.not_mem_nil s)
        · exact hsome

/-- C2 witness: the first part of the theorem applied to a concrete
zero-hit call of `RAGAssistant.answer`: its sources list has exactly one
entry per hit. -/
theorem sources_dedup_behaviour_witness :
    (⟨⟨pystr "GEN", [], [], pystr "q", pystr "gpt-4.1", Fixtures.srEmpty⟩,
      true,
      [⟨pystr "system", RagAssistant.DEFAULT_SYSTEM_PROMPT⟩,
       ⟨pystr "user", pystr "q"⟩]⟩ : RagAssistant.AnswerOut).response.sources.length
      = (pyGetData Fixtures.srEmpty).length :=
  (sources_dedup_behaviour.1 Fixtures.genConst RagAssistant.DEFAULT_SYSTEM_PROMPT
    (pystr "gpt-4.1") 8000 Fixtures.srEmpty (pystr "q") none
    ⟨⟨pystr "GEN", [], [], pystr "q", pystr "gpt-4.1", Fixtures.srEmpty⟩,
     true,
     [⟨pystr "system", RagAssistant.DEFAULT_SYSTEM_PROMPT⟩,
      ⟨pystr "user", pystr "q"⟩]⟩ rfl).1

/-- C2 counterexample: two hits from the same file `a.md` —
`RAGAssistant.answer` reports the filename twice, so its sources list is
not deduplicated and a filename can appear more than once. -/
theorem rag_answer_duplicate_sources_counterexample :
    (RagAssistant.answer Fixtures.genConst RagAssistant.DEFAULT_SYSTEM_PROMPT
        (pystr "gpt-4.1") 8000 Fixtures.srDup (pystr "q") none).map
      (fun out => out.response.sources)
    = .ok [.str (pystr "a.md"), .str (pystr "a.md")]
  ∧ ¬ ([JVal.str (pystr "a.md"), JVal.str (pystr "a.md")].Nodup) :=
  ⟨rfl, fun h => (List.nodup_cons.mp h).1 (List.mem_singleton.mpr rfl)⟩

/-- C6 counterexample: with `timeout_seconds = 0` the timeout check
fires on the first iteration and the call does not fail with a
`TimeoutError` at all — it ends in the unbound-local failure, a distinct
outcome from both a normal return and `TimeoutError`. -/
theorem wait_zero_timeout_no_timeout_error_counterexample :
    wait_for_batch Fixtures.pollInProgress Fixtures.elapsedId 0 300 =
      some .unboundLocalError
  ∧ isTimeoutError .unboundLocalError = false :=
  ⟨rfl, rfl⟩
